import Mathlib

/-!
Verification of the ors-payment-service core against its specification.

The JavaScript sources are shallowly embedded: strings are Lean `String`s
(or `List Char` where character-level reasoning is needed), JS numbers that
hold monetary amounts are `Rat`, machine words inside hash functions are
`Nat` reduced modulo `2 ^ 32` / `2 ^ 64`, and every stateful provider
operation is a pure function from the transaction record (plus the
bank's HTTP response, supplied as a parameter) to the updated record.
External cryptographic library calls that the claims do not inspect
bit-for-bit (Triple-DES, MD5) are universally quantified function
parameters; SHA-1 and SHA-512 are implemented in full because claims
compare concrete digests.
-/

namespace OrsPay

/-! ## Byte, hex and string helpers -/

/-- UTF-8 encoding of a single character, as in Node's `Buffer.from(s, 'utf8')`. -/
def utf8Char (c : Char) : List Nat :=
  let n := c.toNat
  if n < 0x80 then [n]
  else if n < 0x800 then [0xC0 ||| (n >>> 6), 0x80 ||| (n &&& 0x3F)]
  else if n < 0x10000 then
    [0xE0 ||| (n >>> 12), 0x80 ||| ((n >>> 6) &&& 0x3F), 0x80 ||| (n &&& 0x3F)]
  else
    [0xF0 ||| (n >>> 18), 0x80 ||| ((n >>> 12) &&& 0x3F),
     0x80 ||| ((n >>> 6) &&& 0x3F), 0x80 ||| (n &&& 0x3F)]

/-- UTF-8 encoding of a character list. -/
def utf8EncodeL (l : List Char) : List Nat := l.flatMap utf8Char

/-- UTF-8 encoding of a string. -/
def utf8Encode (s : String) : List Nat := utf8EncodeL s.data

/-- Value of a hexadecimal digit, `none` for non-hex characters. -/
def hexVal (c : Char) : Option Nat :=
  if '0' ≤ c ∧ c ≤ '9' then some (c.toNat - '0'.toNat)
  else if 'a' ≤ c ∧ c ≤ 'f' then some (c.toNat - 'a'.toNat + 10)
  else if 'A' ≤ c ∧ c ≤ 'F' then some (c.toNat - 'A'.toNat + 10)
  else none

/-- A hexadecimal digit. -/
def isHexDigit (c : Char) : Bool := (hexVal c).isSome

/-- Decode hex pairs to bytes as Node's `Buffer.from(s, 'hex')` does:
valid pairs are decoded, decoding stops at the first invalid pair, and a
trailing lone nibble is dropped. -/
def hexPairsToBytes : List Char → List Nat
  | a :: b :: rest =>
    match hexVal a, hexVal b with
    | some x, some y => (16 * x + y) :: hexPairsToBytes rest
    | _, _ => []
  | _ => []

/-- Lower-case hex digit for a nibble. -/
def hexDigitChar (n : Nat) : Char :=
  if n < 10 then Char.ofNat ('0'.toNat + n) else Char.ofNat ('a'.toNat + n - 10)

/-- Lower-case hex rendering of one byte. -/
def byteToHex (b : Nat) : List Char := [hexDigitChar (b / 16), hexDigitChar (b % 16)]

/-- Lower-case hex rendering of a byte list. -/
def bytesToHex (bs : List Nat) : String := ⟨bs.flatMap byteToHex⟩

/-- ASCII upper-casing of a string, as JS `toUpperCase` on ASCII data. -/
def strUpper (s : String) : String := ⟨s.data.map Char.toUpper⟩

/-- ASCII lower-casing of a string, as JS `toLowerCase` on ASCII data. -/
def strLower (s : String) : String := ⟨s.data.map Char.toLower⟩

/-- JS `String.prototype.padStart(n, '0')`. -/
def padStartZeros (s : String) (n : Nat) : String :=
  if n ≤ s.length then s else ⟨List.replicate (n - s.length) '0' ++ s.data⟩

/-- Split a character list at every occurrence of a separator, as JS
`String.prototype.split` with a one-character separator. -/
def splitOnChar (sep : Char) : List Char → List (List Char)
  | [] => [[]]
  | x :: xs =>
    let r := splitOnChar sep xs
    if x = sep then [] :: r
    else
      match r with
      | y :: ys => (x :: y) :: ys
      | [] => [[x]]

/-- JS `s || dflt` for strings: the default replaces the empty string. -/
def jsOr (s dflt : String) : String := if s = "" then dflt else s

/-- Decimal digits of a natural number (fuel-based so it reduces in the kernel). -/
def natToDecAux : Nat → Nat → List Char
  | 0, _ => []
  | fuel + 1, n =>
    if n < 10 then [Char.ofNat ('0'.toNat + n)]
    else natToDecAux fuel (n / 10) ++ [Char.ofNat ('0'.toNat + n % 10)]

/-- Decimal rendering of a natural number. -/
def natToDec (n : Nat) : String := ⟨natToDecAux (n + 1) n⟩

/-- Decimal rendering of an integer, as JS `Number.prototype.toString` on integers. -/
def intToDec (i : Int) : String :=
  if i < 0 then "-" ++ natToDec i.natAbs else natToDec i.toNat

/-- JS `Math.round` on an exact rational: round half toward positive infinity,
`⌊q + 1/2⌋`, computed on the raw fraction so that it reduces in the kernel. -/
def jsMathRound (q : Rat) : Int := Int.ediv (2 * q.num + q.den) (2 * q.den)

/-- Big-endian byte rendering of a word in `n` bytes. -/
def beBytes (n : Nat) (x : Nat) : List Nat :=
  (List.range n).map (fun i => (x >>> (8 * (n - 1 - i))) % 256)

/-- Split a byte list into chunks of `n` bytes (fuel-based). -/
def chunksGo (n : Nat) : Nat → List Nat → List (List Nat)
  | 0, _ => []
  | _, [] => []
  | fuel + 1, l => l.take n :: chunksGo n fuel (l.drop n)

/-! ## SHA-1 -/

/-- Bitwise complement of a 32-bit word. -/
def not32 (x : Nat) : Nat := 0xFFFFFFFF ^^^ x

/-- Left-rotation of a 32-bit word. -/
def rotl32 (n x : Nat) : Nat := (((x % 4294967296) <<< n) ||| (x >>> (32 - n))) % 4294967296

/-- SHA-1 message schedule: expand 16 words to 80. -/
def sha1ExpandW (ws : List Nat) : Array Nat :=
  (List.range 80).foldl
    (fun w i =>
      if i < 16 then w.push (ws.getD i 0)
      else
        w.push (rotl32 1
          ((w.getD (i - 3) 0) ^^^ (w.getD (i - 8) 0) ^^^
           (w.getD (i - 14) 0) ^^^ (w.getD (i - 16) 0))))
    #[]

/-- Pack four bytes into a big-endian 32-bit word, for each word of a block. -/
def toWords32 : List Nat → List Nat
  | a :: b :: c :: d :: rest => (((a * 256 + b) * 256 + c) * 256 + d) :: toWords32 rest
  | _ => []

/-- One SHA-1 round. -/
def sha1Round (w : Array Nat) (st : Nat × Nat × Nat × Nat × Nat) (i : Nat) :
    Nat × Nat × Nat × Nat × Nat :=
  let (a, b, c, d, e) := st
  let f :=
    if i < 20 then (b &&& c) ||| ((not32 b) &&& d)
    else if i < 40 then b ^^^ c ^^^ d
    else if i < 60 then (b &&& c) ||| (b &&& d) ||| (c &&& d)
    else b ^^^ c ^^^ d
  let k :=
    if i < 20 then 0x5A827999
    else if i < 40 then 0x6ED9EBA1
    else if i < 60 then 0x8F1BBCDC
    else 0xCA62C1D6
  let temp := (rotl32 5 a + f + e + k + w.getD i 0) % 4294967296
  (temp, a, rotl32 30 b, c, d)

/-- SHA-1 compression of one 64-byte block. -/
def sha1Block (h : Nat × Nat × Nat × Nat × Nat) (block : List Nat) :
    Nat × Nat × Nat × Nat × Nat :=
  let w := sha1ExpandW (toWords32 block)
  let (h0, h1, h2, h3, h4) := h
  let (a, b, c, d, e) := (List.range 80).foldl (sha1Round w) h
  ((h0 + a) % 4294967296, (h1 + b) % 4294967296, (h2 + c) % 4294967296,
   (h3 + d) % 4294967296, (h4 + e) % 4294967296)

/-- SHA-1 digest (20 bytes) of a byte message. -/
def sha1Bytes (msg : List Nat) : List Nat :=
  let k := (64 - (msg.length + 9) % 64) % 64
  let padded := msg ++ [0x80] ++ List.replicate k 0 ++ beBytes 8 (8 * msg.length)
  let blocks := chunksGo 64 padded.length padded
  let (h0, h1, h2, h3, h4) :=
    blocks.foldl sha1Block (0x67452301, 0xEFCDAB89, 0x98BADCFE, 0x10325476, 0xC3D2E1F0)
  beBytes 4 h0 ++ beBytes 4 h1 ++ beBytes 4 h2 ++ beBytes 4 h3 ++ beBytes 4 h4

/-- Lower-case SHA-1 hex digest of a UTF-8 string, `crypto.createHash('sha1')`. -/
def sha1HexS (s : String) : String := bytesToHex (sha1Bytes (utf8Encode s))

/-! ## SHA-512 -/

/-- Bitwise complement of a 64-bit word. -/
def not64 (x : Nat) : Nat := 0xFFFFFFFFFFFFFFFF ^^^ x

/-- Right-rotation of a 64-bit word. -/
def rotr64 (n x : Nat) : Nat :=
  ((x >>> n) ||| ((x % 18446744073709551616) <<< (64 - n))) % 18446744073709551616

/-- SHA-512 round constants: the first 64 bits of the fractional parts of the
cube roots of the first 80 primes (FIPS 180-4, written in decimal). -/
def k512 : Array Nat := #[
  4794697086780616226, 8158064640168781261, 13096744586834688815,
  16840607885511220156, 4131703408338449720, 6480981068601479193,
  10538285296894168987, 12329834152419229976, 15566598209576043074,
  1334009975649890238, 2608012711638119052, 6128411473006802146,
  8268148722764581231, 9286055187155687089, 11230858885718282805,
  13951009754708518548, 16472876342353939154, 17275323862435702243,
  1135362057144423861, 2597628984639134821, 3308224258029322869,
  5365058923640841347, 6679025012923562964, 8573033837759648693,
  10970295158949994411, 12119686244451234320, 12683024718118986047,
  13788192230050041572, 14330467153632333762, 15395433587784984357,
  489312712824947311, 1452737877330783856, 2861767655752347644,
  3322285676063803686, 5560940570517711597, 5996557281743188959,
  7280758554555802590, 8532644243296465576, 9350256976987008742,
  10552545826968843579, 11727347734174303076, 12113106623233404929,
  14000437183269869457, 14369950271660146224, 15101387698204529176,
  15463397548674623760, 17586052441742319658, 1182934255886127544,
  1847814050463011016, 2177327727835720531, 2830643537854262169,
  3796741975233480872, 4115178125766777443, 5681478168544905931,
  6601373596472566643, 7507060721942968483, 8399075790359081724,
  8693463985226723168, 9568029438360202098, 10144078919501101548,
  10430055236837252648, 11840083180663258601, 13761210420658862357,
  14299343276471374635, 14566680578165727644, 15097957966210449927,
  16922976911328602910, 17689382322260857208, 500013540394364858,
  748580250866718886, 1242879168328830382, 1977374033974150939,
  2944078676154940804, 3659926193048069267, 4368137639120453308,
  4836135668995329356, 5532061633213252278, 6448918945643986474,
  6902733635092675308, 7801388544844847127]

/-- Pack eight bytes into a big-endian 64-bit word, for each word of a block. -/
def toWords64 : List Nat → List Nat
  | a :: b :: c :: d :: e :: f :: g :: h :: rest =>
    (((((((a * 256 + b) * 256 + c) * 256 + d) * 256 + e) * 256 + f) * 256 + g) * 256 + h)
      :: toWords64 rest
  | _ => []

/-- SHA-512 small sigma functions for the message schedule. -/
def sigma0 (x : Nat) : Nat := rotr64 1 x ^^^ rotr64 8 x ^^^ (x >>> 7)

/-- Second SHA-512 small sigma function. -/
def sigma1 (x : Nat) : Nat := rotr64 19 x ^^^ rotr64 61 x ^^^ (x >>> 6)

/-- SHA-512 message schedule: expand 16 words to 80. -/
def sha512ExpandW (ws : List Nat) : Array Nat :=
  (List.range 80).foldl
    (fun w i =>
      if i < 16 then w.push (ws.getD i 0)
      else
        w.push ((sigma1 (w.getD (i - 2) 0) + w.getD (i - 7) 0 +
                 sigma0 (w.getD (i - 15) 0) + w.getD (i - 16) 0) % 18446744073709551616))
    #[]

/-- Hash state for SHA-512. -/
structure Sha512St where
  a : Nat
  b : Nat
  c : Nat
  d : Nat
  e : Nat
  f : Nat
  g : Nat
  h : Nat

/-- One SHA-512 round. -/
def sha512Round (w : Array Nat) (st : Sha512St) (i : Nat) : Sha512St :=
  let bigS1 := rotr64 14 st.e ^^^ rotr64 18 st.e ^^^ rotr64 41 st.e
  let ch := (st.e &&& st.f) ^^^ ((not64 st.e) &&& st.g)
  let t1 := (st.h + bigS1 + ch + k512.getD i 0 + w.getD i 0) % 18446744073709551616
  let bigS0 := rotr64 28 st.a ^^^ rotr64 34 st.a ^^^ rotr64 39 st.a
  let maj := (st.a &&& st.b) ^^^ (st.a &&& st.c) ^^^ (st.b &&& st.c)
  let t2 := (bigS0 + maj) % 18446744073709551616
  { a := (t1 + t2) % 18446744073709551616, b := st.a, c := st.b, d := st.c,
    e := (st.d + t1) % 18446744073709551616, f := st.e, g := st.f, h := st.g }

/-- SHA-512 compression of one 128-byte block. -/
def sha512Block (h : Sha512St) (block : List Nat) : Sha512St :=
  let w := sha512ExpandW (toWords64 block)
  let s := (List.range 80).foldl (sha512Round w) h
  { a := (h.a + s.a) % 18446744073709551616, b := (h.b + s.b) % 18446744073709551616,
    c := (h.c + s.c) % 18446744073709551616, d := (h.d + s.d) % 18446744073709551616,
    e := (h.e + s.e) % 18446744073709551616, f := (h.f + s.f) % 18446744073709551616,
    g := (h.g + s.g) % 18446744073709551616, h := (h.h + s.h) % 18446744073709551616 }

/-- SHA-512 digest (64 bytes) of a byte message. -/
def sha512Bytes (msg : List Nat) : List Nat :=
  let k := (128 - (msg.length + 17) % 128) % 128
  let padded := msg ++ [0x80] ++ List.replicate k 0 ++ beBytes 16 (8 * msg.length)
  let blocks := chunksGo 128 padded.length padded
  let s := blocks.foldl sha512Block
    { a := 0x6a09e667f3bcc908, b := 0xbb67ae8584caa73b, c := 0x3c6ef372fe94f82b,
      d := 0xa54ff53a5f1d36f1, e := 0x510e527fade682d1, f := 0x9b05688c2b3e6c1f,
      g := 0x1f83d9abfb41bd6b, h := 0x5be0cd19137e2179 }
  beBytes 8 s.a ++ beBytes 8 s.b ++ beBytes 8 s.c ++ beBytes 8 s.d ++
  beBytes 8 s.e ++ beBytes 8 s.f ++ beBytes 8 s.g ++ beBytes 8 s.h

/-- Lower-case SHA-512 hex digest of a UTF-8 string, `crypto.createHash('sha512')`. -/
def sha512HexS (s : String) : String := bytesToHex (sha512Bytes (utf8Encode s))

/-! ## Data model

Transaction and terminal records, translated from `models/Transaction`
(`src/unnamed/part_000`) and `models/VirtualPos` (`src/unnamed/part_001`).
Card fields hold the plaintext values; encryption at rest is not modelled
because no claim inspects ciphertexts. -/

/-- Card sub-document of a transaction. -/
structure CardData where
  holder : Option String := none
  number : Option String := none
  expiry : Option String := none
  cvv : Option String := none
  masked : Option String := none
  bin : Option Nat := none
deriving Repr, DecidableEq

/-- Terminal result sub-document `tx.result`. -/
structure TxResult where
  success : Bool
  code : Option String := none
  message : Option String := none
  authCode : Option String := none
  refNumber : Option String := none
deriving Repr, DecidableEq

/-- BIN lookup snapshot as produced by the (external) BIN resolver. -/
structure BinInfo where
  bank : String := ""
  bankCode : String := ""
  brand : String := ""
  cardType : String := ""
  family : String := ""
  country : String := ""
deriving Repr, DecidableEq

/-- Fields of the decrypted YKB `MerchantPacket`
(`mid;tid;pay;instcount;xid;...;currency`). -/
structure YkbPacket where
  mid : String
  tid : String
  pay : String
  instcount : String
  xid : String
  totalPoint : String
  totalPointAmount : String
  weburl : String
  hostip : String
  port : String
  tds_tx_status : String
  tds_md_status : String
  tds_md_errormessage : String
  trantime : String
  currency : String
deriving Repr, DecidableEq

/-- Garanti 3-D form data persisted by `GarantiProvider.initialize`. -/
structure GarantiFormData where
  cardnumber : String
  cardcvv2 : String
  cardexpiredateyear : String
  cardexpiredatemonth : String
  txntype : String
  secure3dsecuritylevel : String
  mode : String
  orderid : String
  apiversion : String
  terminalprovuserid : String
  terminaluserid : String
  terminalid : String
  terminalmerchantid : String
  customeripaddress : String
  txnamount : String
  txncurrencycode : String
  txninstallmentcount : String
  successurl : String
  errorurl : String
  secure3dhash : String
deriving Repr, DecidableEq

/-- Adapter-private `tx.secure.formData`, a mixed-shape bundle tagged by adapter. -/
inductive SecureForm where
  | empty : SecureForm
  | garanti : GarantiFormData → SecureForm
deriving Repr, DecidableEq

/-- A transaction record. -/
structure Tx where
  id : String := "TX000001"
  amount : Rat := 0
  currency : String := "try"
  installment : Nat := 1
  status : String := "pending"
  card : CardData := {}
  secureEci : Option String := none
  secureCavv : Option String := none
  secureMd : Option String := none
  secureForm : SecureForm := .empty
  secureDecrypted : Option YkbPacket := none
  result : Option TxResult := none
  logs : List String := []
  completedAt : Bool := false
  cancelledAt : Bool := false
  refundedAt : Bool := false
  customerIp : String := ""
  customerEmail : String := ""
deriving Repr, DecidableEq

/-- The `status` enumeration of the transaction schema
(`src/unnamed/part_000`, transaction model). -/
def transactionStatusEnum : List String := ["pending", "processing", "success", "failed"]

/-- Schema validation of a transaction's status against its enum. -/
def validTransactionStatus (tx : Tx) : Bool := transactionStatusEnum.contains tx.status

/-- Terminal (VirtualPos) record, restricted to the fields the claims touch. -/
structure PosT where
  name : String := ""
  company : String := ""
  bankCode : String := ""
  provider : String := ""
  status : Bool := true
  testMode : Bool := false
  currencies : List String := []
  defaultForCurrencies : List String := []
  priority : Int := 0
  supportedCardFamilies : List String := []
deriving Repr, DecidableEq

/-- Decrypted terminal credentials. -/
structure Credentials where
  merchantId : String := ""
  terminalId : String := ""
  username : String := ""
  password : String := ""
  secretKey : String := ""
  posnetId : String := ""
deriving Repr, DecidableEq

/-- Append a log entry of the given type (`transactionSchema.methods.addLog`). -/
def addLog (tx : Tx) (t : String) : Tx := { tx with logs := tx.logs ++ [t] }

/-- Clear the CVV (`transactionSchema.methods.clearCvv`). -/
def clearCvvTx (tx : Tx) : Tx := { tx with card := { tx.card with cvv := none } }

/-- Outcome of an outbound HTTPS exchange: a parsed response, or the thrown
network error that the provider's `catch` block receives. -/
inductive HttpResult (α : Type) where
  | ok : α → HttpResult α
  | netErr : String → HttpResult α
deriving Repr, DecidableEq

/-- Result of one provider step, with the updated transaction. -/
structure StepRes where
  tx : Tx
  success : Bool
  message : String := ""
  provisionCalled : Bool := false
deriving Repr, DecidableEq

/-! ## BaseProvider shared behaviour (`src/src/providers/BaseProvider.js`) -/

/-- Numeric ISO-4217 currency table `CURRENCY_CODES`. -/
def currencyCodeNum (c : String) : Nat :=
  if c = "try" then 949
  else if c = "usd" then 840
  else if c = "eur" then 978
  else if c = "gbp" then 826
  else 949

/-- YKB alpha currency table `CURRENCY_CODES_YKB`. -/
def currencyCodeYkb (c : String) : String :=
  if c = "try" then "TL"
  else if c = "usd" then "US"
  else if c = "eur" then "EU"
  else if c = "gbp" then "PU"
  else "TL"

/-- Callback URL `<CALLBACK_BASE_URL>/payment/<transactionId>/callback`. -/
def getCallbackUrl (baseUrl : String) (txId : String) : String :=
  baseUrl ++ "/payment/" ++ txId ++ "/callback"

/-- Amount as a cents integer, `Math.round(this.transaction.amount * 100).toString()`
(`BaseProvider.formatAmount` with `decimals = false`); the exact scaling by 100
is `mkRat (100 * num) den`. -/
def formatAmountCents (amount : Rat) : String :=
  intToDec (jsMathRound (mkRat (100 * amount.num) amount.den))

/-- Configuration of the shared HTTPS agent created in `BaseProvider`'s
constructor: `new https.Agent({ rejectUnauthorized: false })`.  The terminal is
a parameter only to exhibit that the construction never consults it. -/
structure AgentConfig where
  rejectUnauthorized : Bool
deriving Repr, DecidableEq

/-- The HTTPS agent BaseProvider builds for a terminal. -/
def baseProviderAgent (_pos : PosT) : AgentConfig := { rejectUnauthorized := false }

/-- Configuration of every outbound POST issued through `BaseProvider.post`. -/
structure PostConfig where
  agent : AgentConfig
  timeoutMs : Nat
deriving Repr, DecidableEq

/-- The request configuration `BaseProvider.post` passes to axios. -/
def basePostConfig (pos : PosT) : PostConfig :=
  { agent := baseProviderAgent pos, timeoutMs := 30000 }

/-! ## GarantiProvider (`src/src/providers/GarantiProvider.js`) -/

/-- Split a string on a one-character separator, JS `String.prototype.split`. -/
def jsSplit (s : String) (sep : Char) : List String :=
  (splitOnChar sep s.data).map (fun l => ⟨l⟩)

/-- Element `i` of a JS array read as a string, `undefined` modelled as `""`. -/
def jsIdx (l : List String) (i : Nat) : String := l.getD i ""

/-- The hashed password `upper(sha1(password + terminalId.padStart(9, '0')))`
computed inside `GarantiProvider.initialize`. -/
def garantiHashedPassword (cred : Credentials) : String :=
  strUpper (sha1HexS (cred.password ++ padStartZeros cred.terminalId 9))

/-- The security hash persisted as `secure3dhash` by `GarantiProvider.initialize`:
`upper(sha1(orderId + terminalId + '' + amount + callbackUrl + callbackUrl +
'sales' + secretKey + hashedPassword))`. -/
def garantiSecurityHash (cred : Credentials) (orderId amount callbackUrl : String) : String :=
  strUpper (sha1HexS
    (orderId ++ cred.terminalId ++ "" ++ amount ++ callbackUrl ++ callbackUrl ++ "sales" ++
      cred.secretKey ++ garantiHashedPassword cred))

/-- The form data `GarantiProvider.initialize` stores into `tx.secure.formData`. -/
def garantiInitFormData (cred : Credentials) (baseUrl : String) (tx : Tx) : GarantiFormData :=
  let orderId := tx.id
  let amount := formatAmountCents tx.amount
  let callbackUrl := getCallbackUrl baseUrl tx.id
  let expiryParts := jsSplit ((tx.card.expiry).getD "") '/'
  { cardnumber := (tx.card.number).getD ""
    cardcvv2 := (tx.card.cvv).getD ""
    cardexpiredateyear := jsIdx expiryParts 1
    cardexpiredatemonth := jsIdx expiryParts 0
    txntype := "sales"
    secure3dsecuritylevel := "3D"
    mode := "PROD"
    orderid := orderId
    apiversion := "v1.0"
    terminalprovuserid := "PROVAUT"
    terminaluserid := "PROVAUT"
    terminalid := cred.terminalId
    terminalmerchantid := cred.merchantId
    customeripaddress := tx.customerIp
    txnamount := amount
    txncurrencycode := natToDec (currencyCodeNum tx.currency)
    txninstallmentcount := if tx.installment > 1 then natToDec tx.installment else ""
    successurl := callbackUrl
    errorurl := callbackUrl
    secure3dhash := garantiSecurityHash cred orderId amount callbackUrl }

/-- Effect of `GarantiProvider.initialize` on the transaction: the form data is
stored in `tx.secure.formData` and an `init` log is appended. -/
def garantiInitialize (cred : Credentials) (baseUrl : String) (tx : Tx) : Tx :=
  addLog { tx with secureForm := .garanti (garantiInitFormData cred baseUrl tx) } "init"

/-- Parsed fields of the bank's provision XML reply that
`GarantiProvider.processProvision` reads (`Transaction.Response.*`,
`Transaction.AuthCode`, `Transaction.RetrefNum`); absent nodes are `""`. -/
structure GarantiXmlResp where
  message : String := ""
  reasonCode : String := ""
  errorMsg : String := ""
  authCode : String := ""
  retrefNum : String := ""
deriving Repr, DecidableEq

/-- Bank POST fields read by `GarantiProvider.processCallback`. -/
structure GarantiPost where
  mdstatus : String := ""
  mderrormessage : String := ""
  md : String := ""
  xid : String := ""
  eci : String := ""
  cavv : String := ""
deriving Repr, DecidableEq

/-- The 3-D statuses `GarantiProvider.processCallback` accepts
(`validStatuses` at its line 105). -/
def garantiValidStatuses : List String := ["1", "2", "3", "4"]

/-- `GarantiProvider.processProvision`: sends the authorization and finalizes
the transaction.  The bank's reply (or the network error) is the `resp`
parameter. -/
def garantiProcessProvision (resp : HttpResult GarantiXmlResp) (tx : Tx) : StepRes :=
  match resp with
  | .ok r =>
    let tx1 := addLog tx "provision"
    if r.message = "Approved" then
      let tx2 := clearCvvTx
        { tx1 with
          status := "success"
          result := some { success := true, authCode := some r.authCode,
                           refNumber := some r.retrefNum }
          completedAt := true }
      { tx := tx2, success := true, message := "Ödeme başarılı", provisionCalled := true }
    else
      let msg := jsOr r.errorMsg "Ödeme reddedildi"
      { tx := { tx1 with
                status := "failed"
                result := some { success := false, code := some r.reasonCode,
                                 message := some msg } },
        success := false, message := msg, provisionCalled := true }
  | .netErr m =>
    { tx := addLog
        { tx with
          status := "failed"
          result := some { success := false, code := some "NETWORK_ERROR",
                           message := some m } } "error",
      success := false, message := "Bağlantı hatası", provisionCalled := true }

/-- `GarantiProvider.processCallback`: logs the bank POST, validates `mdstatus`
against the accepted set, and either fails the transaction or stores the 3-D
artifacts and provisions. -/
def garantiProcessCallback (resp : HttpResult GarantiXmlResp) (tx : Tx)
    (post : GarantiPost) : StepRes :=
  let tx1 := addLog tx "3d_callback"
  if garantiValidStatuses.contains post.mdstatus then
    let tx2 := { tx1 with secureEci := some post.eci, secureCavv := some post.cavv,
                          secureMd := some post.md }
    garantiProcessProvision resp tx2
  else
    let msg := jsOr post.mderrormessage "3D doğrulama başarısız"
    { tx := { tx1 with
              status := "failed"
              result := some { success := false, code := some post.mdstatus,
                               message := some msg } },
      success := false, message := msg, provisionCalled := false }

/-! ## Provider registry (`src/src/providers/index.js`) -/

/-- The `PROVIDERS` registry: a tag is implemented when its entry is non-null. -/
def providerRegistry : List (String × Bool) :=
  [("garanti", true), ("payten", true), ("akbank", false), ("ykb", false),
   ("vakifbank", false), ("qnb", false), ("denizbank", false), ("paytr", false),
   ("iyzico", false), ("sigmapay", false)]

/-- `isProviderSupported`: the tag is a registry key with a non-null entry. -/
def isProviderSupported (p : String) : Bool :=
  match providerRegistry.lookup p with
  | some impl => impl
  | none => false

/-! ## PaymentService (`src/unnamed/part_000`, second version) -/

/-- `isDomesticCard` from BinService: the BIN's country is `"tr"`. -/
def isDomesticCard (b : BinInfo) : Bool := b.country == "tr"

/-- The card-side bank code `binInfo?.bankCode?.toLowerCase() || ''`. -/
def cardBankCodeOf (binInfo : Option BinInfo) : String :=
  (binInfo.map (fun b => strLower b.bankCode)).getD ""

/-- The card-side family `binInfo?.family?.toLowerCase() || ''`. -/
def cardFamilyOf (binInfo : Option BinInfo) : String :=
  (binInfo.map (fun b => strLower b.family)).getD ""

/-- Descending-priority order used by the terminal query's `sort({priority: -1})`. -/
def prioGe (a b : PosT) : Prop := b.priority ≤ a.priority

instance : DecidableRel prioGe := fun a b => inferInstanceAs (Decidable (b.priority ≤ a.priority))

instance : IsTotal PosT prioGe := ⟨fun a b => le_total b.priority a.priority⟩

instance : IsTrans PosT prioGe := ⟨fun _ _ _ hab hbc => le_trans hbc hab⟩

/-- The terminal query of `findSuitablePos`: all of the company's active
terminals supporting the currency, sorted by priority descending. -/
def fetchActivePos (posList : List PosT) (companyId : String) (currencyLower : String) :
    List PosT :=
  (posList.filter
    (fun p => p.company == companyId && p.status && p.currencies.contains currencyLower)).insertionSort
    prioGe

/-- The rule chain of `findSuitablePos` applied to the fetched terminal list:
(1) on-us bank-code match, (2) supported card family, (3) default for the
currency, (4) highest priority. -/
def findSuitablePosOn (allPos : List PosT) (currencyLower : String)
    (binInfo : Option BinInfo) : Option PosT :=
  if allPos.isEmpty then none
  else
    let cardBankCode := cardBankCodeOf binInfo
    let cardFamily := cardFamilyOf binInfo
    match (if cardBankCode ≠ "" then allPos.find? (fun p => p.bankCode == cardBankCode)
           else none) with
    | some p => some p
    | none =>
      match (if cardFamily ≠ "" then
               allPos.find? (fun p => p.supportedCardFamilies.any
                 (fun f => strLower f == cardFamily))
             else none) with
      | some p => some p
      | none =>
        match allPos.find? (fun p => p.defaultForCurrencies.contains currencyLower) with
        | some p => some p
        | none => allPos.head?

/-- `findSuitablePos(companyId, currency, binInfo)` over a terminal universe. -/
def findSuitablePos (posList : List PosT) (companyId : String) (currency : String)
    (binInfo : Option BinInfo) : Option PosT :=
  findSuitablePosOn (fetchActivePos posList companyId (strLower currency)) (strLower currency)
    binInfo

/-- Outcome of `createPayment`: the thrown error message, or the response
`{transactionId, formUrl}`. -/
inductive CreatePaymentOutcome where
  | err : String → CreatePaymentOutcome
  | ok : String → String → CreatePaymentOutcome
deriving Repr, DecidableEq

/-- `createPayment` trace: its outcome, whether a transaction document was
created, and whether `adapter.initialize` was invoked. -/
structure CreatePaymentTrace where
  outcome : CreatePaymentOutcome
  txCreated : Bool
  initCalled : Bool
deriving Repr, DecidableEq

/-- Input of `createPayment`. -/
structure PayData where
  amount : Rat := 0
  currency : String := "try"
  installment : Nat := 1
  cardHolder : String := ""
  cardNumber : String := ""
  cardExpiry : String := ""
  cardCvv : String := ""
deriving Repr, DecidableEq

/-- Result of `adapter.initialize` as consumed by `createPayment`. -/
structure InitResult where
  success : Bool
  code : String := ""
  error : String := ""
deriving Repr, DecidableEq

/-- `createPayment` control flow (`src/unnamed/part_000` lines 423–512): resolve
the terminal, check the provider, gate domestic cards on non-TRY currencies,
create the transaction, then initialize.  The terminal lookup, BIN resolution
and initialize outcome are parameters standing for the awaited externals. -/
def createPayment (pos : Option PosT) (binInfo : Option BinInfo) (init : InitResult)
    (data : PayData) (baseUrl txId : String) : CreatePaymentTrace :=
  match pos with
  | none =>
    { outcome := .err "Sanal pos bulunamadı veya aktif değil",
      txCreated := false, initCalled := false }
  | some p =>
    if p.status = false then
      { outcome := .err "Sanal pos bulunamadı veya aktif değil",
        txCreated := false, initCalled := false }
    else if ¬ isProviderSupported p.provider then
      { outcome := .err ("Provider henüz desteklenmiyor: " ++ p.provider),
        txCreated := false, initCalled := false }
    else if data.currency ≠ "try" ∧ ((binInfo.map isDomesticCard).getD false) = true then
      { outcome := .err "Yurtiçi kartlarla sadece TL ödeme yapabilirsiniz",
        txCreated := false, initCalled := false }
    else if init.success then
      { outcome := .ok txId (baseUrl ++ "/payment/" ++ txId ++ "/form"),
        txCreated := true, initCalled := true }
    else
      { outcome := .err (jsOr init.error "Ödeme başlatılamadı"),
        txCreated := true, initCalled := true }

/-- `processCallback(transactionId, fields)` of the orchestrator: load the
transaction and delegate to the adapter with no state guard.  Dispatch is shown
for the Garanti adapter; `resp` stands for the bank's provision reply. -/
def processCallbackOrchestrator (resp : HttpResult GarantiXmlResp) (tx : Option Tx)
    (provider : String) (post : GarantiPost) : Except String StepRes :=
  match tx with
  | none => .error "İşlem bulunamadı"
  | some t =>
    if provider = "garanti" then .ok (garantiProcessCallback resp t post)
    else .error ("Provider not implemented: " ++ provider)

/-- The public card projection of `getTransactionStatus` and
`transactionSchema.methods.toJSON`. -/
structure CardView where
  masked : Option String
  bin : Option Nat
deriving Repr, DecidableEq

/-- The public view returned by `getTransactionStatus`. -/
structure TxStatusView where
  id : String
  status : String
  amount : Rat
  currency : String
  installment : Nat
  card : CardView
  result : Option TxResult
  completedAt : Bool
deriving Repr, DecidableEq

/-- `getTransactionStatus` projection of a found transaction. -/
def getTransactionStatusView (tx : Tx) : TxStatusView :=
  { id := tx.id
    status := tx.status
    amount := tx.amount
    currency := tx.currency
    installment := tx.installment
    card := { masked := tx.card.masked, bin := tx.card.bin }
    result := tx.result
    completedAt := tx.completedAt }

/-- Card projection of `transactionSchema.methods.toJSON` (list serialization). -/
def toJSONCardProjection (tx : Tx) : CardView :=
  { masked := tx.card.masked, bin := tx.card.bin }

/-! ## YKBProvider (`src/src/providers/YKBProvider.js`)

The Triple-DES-CBC decrypt-and-UTF-8-decode step (`createDecipheriv` +
`update/final`) and the MD5 hex digest are external crypto primitives; they
enter the model as function parameters `tdes` and `md5hex`, so every theorem
below holds for the real primitives in particular. -/

/-- Type of the external `des-ede3-cbc` decrypt primitive: key bytes, IV bytes
and ciphertext bytes to the UTF-8-decoded plaintext characters. -/
abbrev TdesFun := List Nat → List Nat → List Nat → List Char

/-- Type of the external MD5 hex-digest primitive. -/
abbrev Md5Fun := String → String

/-- JS `String.prototype.substring(a, b)`: clamp both indices to `[0, length]`
and swap them when start exceeds end. -/
def jsSubstringL (s : List Char) (a b : Int) : List Char :=
  let n : Int := s.length
  let a' := (max 0 (min a n)).toNat
  let b' := (max 0 (min b n)).toNat
  if a' ≤ b' then (s.drop a').take (b' - a') else (s.drop b').take (a' - b')

/-- The three data-extraction variants tried by `decryptMerchantPacket`. -/
inductive YkbMode where
  | full : YkbMode
  | minus8 : YkbMode
  | minus16 : YkbMode
deriving Repr, DecidableEq

/-- Data extraction of `tryDecrypt`'s `switch (mode)`:
`substring(16)`, `substring(16, length - 8)`, `substring(16, length - 16)`. -/
def ykbExtractData (packet : List Char) : YkbMode → List Char
  | .full => jsSubstringL packet 16 packet.length
  | .minus8 => jsSubstringL packet 16 ((packet.length : Int) - 8)
  | .minus16 => jsSubstringL packet 16 ((packet.length : Int) - 16)

/-- Key characters: `md5(storeKey).toUpperCase().substring(0, 24)`. -/
def ykbKeyChars (md5hex : Md5Fun) (storeKey : String) : List Char :=
  ((md5hex storeKey).data.map Char.toUpper).take 24

/-- Strip the trailing padding bytes, `replace(/[\x00-\x08]+$/, '')`. -/
def stripTrailingCtl (l : List Char) : List Char :=
  (l.reverse.dropWhile (fun c => c.toNat ≤ 8)).reverse

/-- Parse the semicolon-separated plaintext fields into a packet record;
fields 12–14 default to `""` as in `parts[12] || ''`. -/
def mkYkbPacket (parts : List (List Char)) : YkbPacket :=
  { mid := ⟨parts.getD 0 []⟩
    tid := ⟨parts.getD 1 []⟩
    pay := ⟨parts.getD 2 []⟩
    instcount := ⟨parts.getD 3 []⟩
    xid := ⟨parts.getD 4 []⟩
    totalPoint := ⟨parts.getD 5 []⟩
    totalPointAmount := ⟨parts.getD 6 []⟩
    weburl := ⟨parts.getD 7 []⟩
    hostip := ⟨parts.getD 8 []⟩
    port := ⟨parts.getD 9 []⟩
    tds_tx_status := ⟨parts.getD 10 []⟩
    tds_md_status := ⟨parts.getD 11 []⟩
    tds_md_errormessage := ⟨parts.getD 12 []⟩
    trantime := ⟨parts.getD 13 []⟩
    currency := ⟨parts.getD 14 []⟩ }

/-- Acceptance step shared by every variant: decrypt, strip padding, require a
semicolon and at least 12 fields. -/
def ykbAccept (tdes : TdesFun) (keyBytes ivBytes dataBytes : List Nat) : Option YkbPacket :=
  let plain := stripTrailingCtl (tdes keyBytes ivBytes dataBytes)
  if ¬ plain.contains ';' then none
  else
    let parts := splitOnChar ';' plain
    if parts.length < 12 then none else some (mkYkbPacket parts)

/-- `YKBProvider.tryDecrypt(encryptedData, storeKey, mode)`: derive key and IV,
extract the mode's data slice, reject non-block-aligned data, then decrypt and
validate.  A key or IV of the wrong byte length makes `createDecipheriv` throw,
which the surrounding `try/catch` turns into `null`. -/
def ykbTryDecrypt (tdes : TdesFun) (md5hex : Md5Fun) (packet : List Char)
    (storeKey : String) (m : YkbMode) : Option YkbPacket :=
  let keyBytes := utf8EncodeL (ykbKeyChars md5hex storeKey)
  let ivBytes := hexPairsToBytes (jsSubstringL packet 0 16)
  let dataBytes := hexPairsToBytes (ykbExtractData packet m)
  if dataBytes.length % 8 ≠ 0 then none
  else if keyBytes.length ≠ 24 ∨ ivBytes.length ≠ 8 then none
  else ykbAccept tdes keyBytes ivBytes dataBytes

/-- `YKBProvider.decryptMerchantPacket`: try the three extraction variants in
order and return the first accepted result. -/
def decryptMerchantPacket (tdes : TdesFun) (md5hex : Md5Fun) (packet : List Char)
    (storeKey : String) : Option YkbPacket :=
  match ykbTryDecrypt tdes md5hex packet storeKey .full with
  | some r => some r
  | none =>
    match ykbTryDecrypt tdes md5hex packet storeKey .minus8 with
    | some r => some r
    | none => ykbTryDecrypt tdes md5hex packet storeKey .minus16

/-- Parsed fields of the POSNET XML reply read by YKB operations
(`approved`, `authCode`, `hostlogkey`, `respCode`, `respText`). -/
structure YkbXmlResp where
  approved : String := ""
  authCode : String := ""
  hostlogkey : String := ""
  respCode : String := ""
  respText : String := ""
deriving Repr, DecidableEq

/-- Bank POST fields read by `YKBProvider.processCallback`. -/
structure YkbPost where
  bankPacket : String := ""
  merchantPacket : String := ""
  sign : String := ""
deriving Repr, DecidableEq

/-- The 3-D statuses `YKBProvider.processCallback` accepts. -/
def ykbValidStatuses : List String := ["1", "2", "4", "9"]

/-- `YKBProvider.processProvision`: send `oosTranData` and finalize; the
approved branch clears the CVV. -/
def ykbProcessProvision (resp : HttpResult YkbXmlResp) (tx : Tx) : StepRes :=
  let tx0 := addLog tx "provision"
  match resp with
  | .ok r =>
    let tx1 := addLog tx0 "provision"
    if r.approved = "1" then
      let tx2 := clearCvvTx
        { tx1 with
          status := "success"
          result := some { success := true, authCode := some r.authCode,
                           refNumber := some r.hostlogkey }
          completedAt := true }
      { tx := tx2, success := true, message := "Odeme basarili", provisionCalled := true }
    else
      let msg := jsOr r.respText "Odeme reddedildi"
      { tx := { tx1 with
                status := "failed"
                result := some { success := false, code := some r.respCode,
                                 message := some msg } },
        success := false, message := msg, provisionCalled := true }
  | .netErr m =>
    { tx := addLog
        { tx0 with
          status := "failed"
          result := some { success := false, code := some "NETWORK_ERROR",
                           message := some m } } "error",
      success := false, message := "Baglanti hatasi", provisionCalled := true }

/-- `YKBProvider.processCallback`: log the POST, require a `MerchantPacket` and
a store key, decrypt, validate `tds_md_status`, then provision. -/
def ykbProcessCallback (tdes : TdesFun) (md5hex : Md5Fun)
    (resp : HttpResult YkbXmlResp) (cred : Credentials) (tx : Tx) (post : YkbPost) :
    StepRes :=
  let tx1 := addLog tx "3d_callback"
  if post.merchantPacket = "" then
    { tx := { tx1 with
              status := "failed"
              result := some { success := false, code := some "NO_MERCHANT_PACKET",
                               message := some "Banka yaniti alinamadi" } },
      success := false, message := "Banka yaniti alinamadi" }
  else if cred.secretKey = "" then
    { tx := { tx1 with
              status := "failed"
              result := some { success := false, code := some "NO_SECRET_KEY",
                               message := some "POS storeKey/secretKey bulunamadi" } },
      success := false, message := "POS storeKey/secretKey bulunamadi" }
  else
    match decryptMerchantPacket tdes md5hex post.merchantPacket.data cred.secretKey with
    | none =>
      { tx := { tx1 with
                status := "failed"
                result := some { success := false, code := some "DECRYPT_ERROR",
                                 message := some "3D dogrulama sifresi cozulemedi" } },
        success := false, message := "3D dogrulama sifresi cozulemedi" }
    | some dec =>
      let tx2 := { tx1 with secureDecrypted := some dec }
      if ykbValidStatuses.contains dec.tds_md_status then
        ykbProcessProvision resp tx2
      else
        let msg := jsOr dec.tds_md_errormessage "3D dogrulama basarisiz"
        { tx := { tx2 with
                  status := "failed"
                  result := some { success := false, code := some dec.tds_md_status,
                                   message := some msg } },
          success := false, message := msg }

/-- Result of a YKB refund/cancel call: the updated child (refund/cancel)
transaction and the updated original transaction. -/
structure InverseOpRes where
  child : Tx
  orig : Tx
  success : Bool
deriving Repr, DecidableEq

/-- `YKBProvider.refund(originalTransaction)`: on approval the refund
transaction becomes `success` (without clearing its CVV) and the original
gains `refundedAt`. -/
def ykbRefund (resp : HttpResult YkbXmlResp) (child orig : Tx) : InverseOpRes :=
  let tx0 := addLog child "refund"
  match resp with
  | .ok r =>
    let tx1 := addLog tx0 "refund"
    if r.approved = "1" then
      { child := { tx1 with
                   status := "success"
                   result := some { success := true, authCode := some r.authCode,
                                    refNumber := some r.hostlogkey,
                                    message := some "İade başarılı" }
                   completedAt := true },
        orig := { orig with refundedAt := true }, success := true }
    else
      { child := { tx1 with
                   status := "failed"
                   result := some { success := false, code := some r.respCode,
                                    message := some (jsOr r.respText "İade reddedildi") } },
        orig := orig, success := false }
  | .netErr m =>
    { child := addLog
        { tx0 with
          status := "failed"
          result := some { success := false, code := some "NETWORK_ERROR",
                           message := some m } } "error",
      orig := orig, success := false }

/-- `YKBProvider.cancel(originalTransaction)`: on approval the cancel
transaction becomes `success` and the original gains `cancelledAt` and the
status value `"cancelled"`, which is then saved. -/
def ykbCancel (resp : HttpResult YkbXmlResp) (child orig : Tx) : InverseOpRes :=
  let tx0 := addLog child "cancel"
  match resp with
  | .ok r =>
    let tx1 := addLog tx0 "cancel"
    if r.approved = "1" then
      { child := { tx1 with
                   status := "success"
                   result := some { success := true, authCode := some r.authCode,
                                    refNumber := some r.hostlogkey,
                                    message := some "İptal başarılı" }
                   completedAt := true },
        orig := { orig with cancelledAt := true, status := "cancelled" }, success := true }
    else
      { child := { tx1 with
                   status := "failed"
                   result := some { success := false, code := some r.respCode,
                                    message := some (jsOr r.respText "İptal reddedildi") } },
        orig := orig, success := false }
  | .netErr m =>
    { child := addLog
        { tx0 with
          status := "failed"
          result := some { success := false, code := some "NETWORK_ERROR",
                           message := some m } } "error",
      orig := orig, success := false }

/-! ## Specification-side definitions

These follow the wording of the specification (not the source) and are
compared against the source-derived definitions above. -/

/-- The 3-D form hash as the specification states it for Garanti:
`upper(sha512(terminalId + orderId + amount + currency + successUrl + errorUrl
+ "sales" + installment + storeKey + hp))` with
`hp = upper(sha1(password + "0" + terminalId))`. -/
def specSecure3dHashClaim (cred : Credentials) (tx : Tx) (url : String) : String :=
  let hp := strUpper (sha1HexS (cred.password ++ "0" ++ cred.terminalId))
  strUpper (sha512HexS
    (cred.terminalId ++ tx.id ++ formatAmountCents tx.amount ++
      natToDec (currencyCodeNum tx.currency) ++ url ++ url ++ "sales" ++
      (if tx.installment > 1 then natToDec tx.installment else "") ++
      cred.secretKey ++ hp))

/-! ## Concrete test fixtures -/

/-- S1 Garanti terminal credentials. -/
def garantiCred : Credentials :=
  { merchantId := "7000679", terminalId := "30691298", password := "123qweASD/",
    secretKey := "12345678" }

/-- S1-style transaction with a clear card, before any processing. -/
def s1Tx : Tx :=
  { id := "TX000001", amount := 150, currency := "try", installment := 1,
    status := "pending",
    card := { holder := some "JOHN DOE", number := some "4282209004348016",
              expiry := some "03/28", cvv := some "358",
              masked := some "4282 20** **** 8016", bin := some 42822090 } }

/-- A finalized (terminal-state) success transaction, as left by an approved
S1 provision. -/
def finalizedTx : Tx :=
  { id := "TX000001", amount := 150, currency := "try", installment := 1,
    status := "success",
    card := { holder := some "JOHN DOE", number := some "4282209004348016",
              expiry := some "03/28", cvv := none,
              masked := some "4282 20** **** 8016", bin := some 42822090 },
    result := some { success := true, authCode := some "AUTH01", refNumber := some "REF01" },
    logs := ["init", "3d_form", "3d_callback", "provision"],
    completedAt := true }

/-! ## C6 machinery: specification-side decryption variants and slice lemmas -/

/-- Drop the last `n` characters. -/
def dropLastN (n : Nat) (l : List Char) : List Char := l.take (l.length - n)

/-- The data-extraction variants as the specification words them: the full
remainder after the IV, the remainder minus the last 8 hex characters, and the
remainder minus the last 16. -/
def claimExtractData (packet : List Char) : YkbMode → List Char
  | .full => packet.drop 16
  | .minus8 => dropLastN 8 (packet.drop 16)
  | .minus16 => dropLastN 16 (packet.drop 16)

/-- One decryption variant as the specification words it: require the 16-hex
IV prefix, extract the variant's data, require block alignment, then decrypt
and accept when the plaintext holds a semicolon and at least 12 fields. -/
def claimVariant (tdes : TdesFun) (md5hex : Md5Fun) (packet : List Char)
    (storeKey : String) (m : YkbMode) : Option YkbPacket :=
  if packet.length < 16 then none
  else
    let keyBytes := utf8EncodeL (ykbKeyChars md5hex storeKey)
    let ivBytes := hexPairsToBytes (packet.take 16)
    let dataBytes := hexPairsToBytes (claimExtractData packet m)
    if dataBytes.length % 8 ≠ 0 then none
    else ykbAccept tdes keyBytes ivBytes dataBytes

/-- The approving bank reply used by the C2 counterexample. -/
def c2Resp : HttpResult GarantiXmlResp :=
  .ok { message := "Approved", authCode := "AUTH01", retrefNum := "REF01" }

/-- S4 terminal A: on-us Garanti terminal with the lowest priority. -/
def s4posA : PosT :=
  { name := "A", company := "C1", bankCode := "garanti", provider := "garanti",
    status := true, currencies := ["try"], defaultForCurrencies := ["try"], priority := 0 }

/-- S4 terminal B: İş Bankası terminal with the highest priority. -/
def s4posB : PosT :=
  { name := "B", company := "C1", bankCode := "isbank", provider := "payten",
    status := true, currencies := ["try"], priority := 10 }

/-- S4 BIN info resolving to bank code `garanti`. -/
def s4bin : BinInfo :=
  { bank := "Garanti BBVA", bankCode := "garanti", family := "bonus", country := "tr" }

/-- A stand-in Triple-DES decryption for the concrete witness run: plaintext of
the ciphertext's length. -/
def c6TdesStub : TdesFun := fun _ _ d => List.replicate d.length 'x'

/-- A stand-in MD5 hex digest for the concrete witness run. -/
def c6Md5Stub : Md5Fun := fun _ => "0123456789abcdef0123456789abcdef"

/-! ## Theorems -/

/-- FIPS 180 test vector pinning the SHA-1 implementation. -/
theorem sha1_test_vector :
    sha1HexS "abc" = "a9993e364706816aba3e25717850c26c9cd0d89d" := by
  set_option maxRecDepth 100000 in decide

/-- FIPS 180 test vector pinning the SHA-512 implementation. -/
theorem sha512_test_vector :
    sha512HexS "abc" = "ddaf35a193617abacc417349ae20413112e6fa4e89a97ea20a9eeee64b55d39a2192992a274fc1a836ba3c23a3feebbd454d4423643ce80e2a9ac94fa54ca49f" := by
  set_option maxRecDepth 100000 in decide


/-- C4 counterexample: this concrete Garanti terminal has opted into nothing,
yet the HTTP agent built for it disables TLS certificate verification —
`BaseProvider`'s constructor hard-codes `rejectUnauthorized: false` and the
terminal schema has no TLS-related field at all, so the claimed per-terminal
opt-in cannot exist. -/
theorem c4_counterexample :
    (basePostConfig { name := "Garanti POS", company := "C1", bankCode := "garanti",
                      provider := "garanti", currencies := ["try"] }).agent.rejectUnauthorized
      = false := rfl

/-- C4 (amended): TLS-verify relaxation is the unconditional global default —
for every terminal, the shared HTTPS agent used by `BaseProvider.post` is
created with certificate verification disabled. -/
theorem c4_amended_theorem (pos : PosT) :
    baseProviderAgent pos = { rejectUnauthorized := false } ∧
    (basePostConfig pos).agent.rejectUnauthorized = false ∧
    (basePostConfig pos).timeoutMs = 30000 := ⟨rfl, rfl, rfl⟩

/-- C8: the public projection of `getTransactionStatus` (and the `toJSON` card
projection used by list serializations) exposes of the card only `masked` and
`bin`, and its output is invariant under arbitrary changes to the encrypted
`holder`, `number`, `expiry` and `cvv` fields. -/
theorem c8_theorem (tx : Tx) (h n e c : Option String) :
    getTransactionStatusView
        { tx with card := { tx.card with holder := h, number := n, expiry := e, cvv := c } }
      = getTransactionStatusView tx ∧
    toJSONCardProjection
        { tx with card := { tx.card with holder := h, number := n, expiry := e, cvv := c } }
      = toJSONCardProjection tx ∧
    (getTransactionStatusView tx).card = { masked := tx.card.masked, bin := tx.card.bin } :=
  ⟨rfl, rfl, rfl⟩

/-- C10: a payment whose currency is not `"try"` and whose resolved BIN info
carries `country = "tr"` is rejected by `createPayment` before the transaction
is created and before the adapter's `initialize` is called. -/
theorem c10_theorem (pos : PosT) (binInfo : Option BinInfo) (init : InitResult)
    (data : PayData) (baseUrl txId : String) (b : BinInfo)
    (hStatus : pos.status = true) (hProv : isProviderSupported pos.provider = true)
    (hCur : data.currency ≠ "try") (hBin : binInfo = some b) (hTr : b.country = "tr") :
    createPayment (some pos) binInfo init data baseUrl txId =
      { outcome := .err "Yurtiçi kartlarla sadece TL ödeme yapabilirsiniz",
        txCreated := false, initCalled := false } := by
  subst hBin
  simp [createPayment, hStatus, hProv, hCur, isDomesticCard, hTr]

/-- C10 witness: a concrete EUR payment with a Turkish BIN is rejected with the
domestic-card error, creating no transaction and calling no adapter. -/
theorem c10_witness :
    createPayment
        (some { name := "Garanti POS", company := "C1", bankCode := "garanti",
                provider := "garanti", status := true, currencies := ["try", "eur"] })
        (some { bank := "Garanti BBVA", bankCode := "garanti", country := "tr" })
        { success := true } { currency := "eur", amount := 100 } "http://localhost:7043"
        "TX000001" =
      { outcome := .err "Yurtiçi kartlarla sadece TL ödeme yapabilirsiniz",
        txCreated := false, initCalled := false } :=
  c10_theorem _ _ _ _ _ _ _ rfl rfl (by decide) rfl rfl

/-- C9: evaluation of the code at the failing input.  An approved YKB cancel
sets the parent transaction's status to `"cancelled"` and sets `cancelledAt`,
but `"cancelled"` is not in the transaction schema's status enumeration, so the
subsequent save of the parent fails schema validation: the value is not
storable, contradicting the claim's enumeration
`{pending, processing, success, failed, cancelled}`. -/
theorem c9_theorem :
    (ykbCancel (.ok { approved := "1", authCode := "AUTH02", hostlogkey := "HOST02" })
        { id := "TX000002", status := "pending" } finalizedTx).orig.status = "cancelled" ∧
    (ykbCancel (.ok { approved := "1", authCode := "AUTH02", hostlogkey := "HOST02" })
        { id := "TX000002", status := "pending" } finalizedTx).orig.cancelledAt = true ∧
    validTransactionStatus
        (ykbCancel (.ok { approved := "1", authCode := "AUTH02", hostlogkey := "HOST02" })
          { id := "TX000002", status := "pending" } finalizedTx).orig = false ∧
    transactionStatusEnum.contains "cancelled" = false := by
  refine ⟨rfl, rfl, ?_, ?_⟩ <;> decide

/-- C2 counterexample: with the bank posting `mdstatus = "2"`, the Garanti
adapter does not fail the transaction — it proceeds to provision (and with an
approving bank reply even finalizes the payment as success), contradicting the
claim that only `mdstatus = "1"` is accepted. -/
theorem c2_counterexample :
    (garantiProcessCallback c2Resp { s1Tx with status := "processing" }
        { mdstatus := "2" }).provisionCalled = true ∧
    (garantiProcessCallback c2Resp { s1Tx with status := "processing" }
        { mdstatus := "2" }).tx.status = "success" := by
  refine ⟨rfl, rfl⟩

/-- C2 (amended): the Garanti adapter proceeds to provision exactly when the
posted `mdstatus` is one of `{"1", "2", "3", "4"}`; for every other value it
sets the transaction to `failed` without calling provision. -/
theorem garantiProvision_called (resp : HttpResult GarantiXmlResp) (tx : Tx) :
    (garantiProcessProvision resp tx).provisionCalled = true := by
  cases resp with
  | ok r =>
    simp only [garantiProcessProvision]
    split <;> rfl
  | netErr m => rfl

theorem c2_amended_theorem (resp : HttpResult GarantiXmlResp) (tx : Tx) (post : GarantiPost) :
    (garantiProcessCallback resp tx post).provisionCalled
        = garantiValidStatuses.contains post.mdstatus ∧
    (garantiValidStatuses.contains post.mdstatus = false →
      (garantiProcessCallback resp tx post).tx.status = "failed" ∧
      (garantiProcessCallback resp tx post).provisionCalled = false) := by
  by_cases h : post.mdstatus ∈ garantiValidStatuses
  · constructor
    · simp [garantiProcessCallback, h, garantiProvision_called]
    · intro hf
      simp [h] at hf
  · constructor
    · simp [garantiProcessCallback, h]
    · intro hf
      constructor <;> simp [garantiProcessCallback, h]

/-- C2 witness: concrete runs of the amended theorem — `mdstatus = "0"` fails
without provision. -/
theorem c2_witness :
    (garantiValidStatuses.contains "0" = false →
      (garantiProcessCallback (.netErr "unused") { s1Tx with status := "processing" }
          { mdstatus := "0" }).tx.status = "failed" ∧
      (garantiProcessCallback (.netErr "unused") { s1Tx with status := "processing" }
          { mdstatus := "0" }).provisionCalled = false) ∧
    garantiValidStatuses.contains "0" = false :=
  ⟨(c2_amended_theorem (.netErr "unused") { s1Tx with status := "processing" }
      { mdstatus := "0" }).2, by decide⟩

/-- C1 counterexample: re-posting a callback with an invalid `mdstatus` to an
already finalized success transaction does not return the persisted outcome —
it flips `tx.status` from `success` to `failed`, overwrites `tx.result`, and
appends a new `3d_callback` log.  Neither the orchestrator nor the Garanti
adapter checks for a terminal state. -/
theorem c1_counterexample :
    (garantiProcessCallback (.netErr "unused") finalizedTx { mdstatus := "0" }).tx.status
        = "failed" ∧
    finalizedTx.status = "success" ∧
    (garantiProcessCallback (.netErr "unused") finalizedTx { mdstatus := "0" }).tx.result
        ≠ finalizedTx.result ∧
    (garantiProcessCallback (.netErr "unused") finalizedTx { mdstatus := "0" }).tx.logs
        = finalizedTx.logs ++ ["3d_callback"] := by
  refine ⟨rfl, rfl, by decide, rfl⟩

/-- C1 (amended): `processCallback` performs no terminal-state short-circuit:
for a transaction already in a terminal state it still delegates unchanged to
the adapter, which appends a `3d_callback` log and re-validates the posted
fields, overwriting `tx.status` and `tx.result` (an invalid `mdstatus` moves
even a success transaction to `failed`). -/
theorem c1_amended_theorem (resp : HttpResult GarantiXmlResp) (tx : Tx) (post : GarantiPost)
    (_hTerm : tx.status = "success" ∨ tx.status = "failed" ∨ tx.status = "cancelled")
    (hMd : garantiValidStatuses.contains post.mdstatus = false) :
    processCallbackOrchestrator resp (some tx) "garanti" post
        = .ok (garantiProcessCallback resp tx post) ∧
    (garantiProcessCallback resp tx post).tx.status = "failed" ∧
    (garantiProcessCallback resp tx post).tx.result
        = some { success := false, code := some post.mdstatus,
                 message := some (jsOr post.mderrormessage "3D doğrulama başarısız") } ∧
    (garantiProcessCallback resp tx post).tx.logs = tx.logs ++ ["3d_callback"] ∧
    (garantiProcessCallback resp tx post).provisionCalled = false := by
  have h' : post.mdstatus ∉ garantiValidStatuses := by simpa using hMd
  refine ⟨by simp [processCallbackOrchestrator], ?_, ?_, ?_, ?_⟩ <;>
    simp [garantiProcessCallback, h', addLog]

/-- C1 witness: the amended theorem at the finalized S1 transaction and an
invalid re-posted `mdstatus`. -/
theorem c1_witness :
    processCallbackOrchestrator (.netErr "unused") (some finalizedTx) "garanti"
        { mdstatus := "7" }
      = .ok (garantiProcessCallback (.netErr "unused") finalizedTx { mdstatus := "7" }) ∧
    (garantiProcessCallback (.netErr "unused") finalizedTx { mdstatus := "7" }).tx.status
        = "failed" :=
  ⟨(c1_amended_theorem (.netErr "unused") finalizedTx { mdstatus := "7" }
      (Or.inl rfl) (by decide)).1,
   (c1_amended_theorem (.netErr "unused") finalizedTx { mdstatus := "7" }
      (Or.inl rfl) (by decide)).2.1⟩

/-- C7 counterexample: an approved YKB refund sets the refund transaction's
status to `success` without clearing its CVV — the refund, cancel and post-auth
success paths call `save` directly instead of `clearCvv`, so a success
transaction can retain a CVV. -/
theorem c7_counterexample :
    (ykbRefund (.ok { approved := "1", authCode := "AUTH03", hostlogkey := "HOST03" })
        { s1Tx with status := "processing" } finalizedTx).child.status = "success" ∧
    (ykbRefund (.ok { approved := "1", authCode := "AUTH03", hostlogkey := "HOST03" })
        { s1Tx with status := "processing" } finalizedTx).child.card.cvv = some "358" := by
  refine ⟨rfl, rfl⟩

/-- C7 (amended): the payment success paths do clear the CVV — whenever Garanti
or YKB provision leaves a transaction with status `success` its CVV is `null` —
but the YKB refund path never touches the card, so a refund transaction that
reaches `success` keeps whatever CVV it carried. -/
theorem c7_amended_theorem (respG : HttpResult GarantiXmlResp)
    (respY respR : HttpResult YkbXmlResp) (txG txY child orig : Tx) :
    ((garantiProcessProvision respG txG).tx.status = "success" →
      (garantiProcessProvision respG txG).tx.card.cvv = none) ∧
    ((ykbProcessProvision respY txY).tx.status = "success" →
      (ykbProcessProvision respY txY).tx.card.cvv = none) ∧
    (ykbRefund respR child orig).child.card.cvv = child.card.cvv := by
  refine ⟨?_, ?_, ?_⟩
  · cases respG with
    | ok r => by_cases ha : r.message = "Approved" <;>
        simp [garantiProcessProvision, ha, clearCvvTx, addLog]
    | netErr m => simp [garantiProcessProvision, addLog]
  · cases respY with
    | ok r => by_cases ha : r.approved = "1" <;>
        simp [ykbProcessProvision, ha, clearCvvTx, addLog]
    | netErr m => simp [ykbProcessProvision, addLog]
  · cases respR with
    | ok r => by_cases ha : r.approved = "1" <;> simp [ykbRefund, ha, addLog]
    | netErr m => simp [ykbRefund, addLog]

/-- C7 witness: the amended theorem at concrete approved provisions and a
concrete refund, with the success hypothesis discharged concretely. -/
theorem c7_witness :
    (garantiProcessProvision c2Resp s1Tx).tx.card.cvv = none ∧
    (ykbRefund (.ok { approved := "1" }) s1Tx finalizedTx).child.card.cvv = s1Tx.card.cvv :=
  ⟨(c7_amended_theorem c2Resp (.netErr "u") (.ok { approved := "1" })
      s1Tx s1Tx s1Tx finalizedTx).1 (by decide),
   (c7_amended_theorem c2Resp (.netErr "u") (.ok { approved := "1" })
      s1Tx s1Tx s1Tx finalizedTx).2.2⟩

/-- C3 counterexample: at the S1 terminal and transaction, the `secure3dhash`
persisted by `GarantiProvider.initialize` differs from the specification's
`upper(sha512(terminalId + orderId + amount + currency + successUrl + errorUrl
+ "sales" + installment + storeKey + hp))`: the code hashes with SHA-1, over
`orderId + terminalId + '' + amount + successUrl + errorUrl + "sales" +
storeKey + hp`, with no currency or installment component. -/
theorem c3_counterexample :
    (garantiInitFormData garantiCred "http://localhost:7043" s1Tx).secure3dhash
      ≠ specSecure3dHashClaim garantiCred s1Tx
          (getCallbackUrl "http://localhost:7043" s1Tx.id) := by
  set_option maxRecDepth 20000 in decide

/-- C3 (amended): the `secure3dhash` persisted by `initialize` equals
`upper(sha1(orderId + terminalId + "" + amount + successUrl + errorUrl +
"sales" + storeKey + hp))` where `hp = upper(sha1(password +
terminalId.padStart(9, "0")))`, the amount is the cents integer and both URLs
are the callback URL. -/
theorem c3_amended_theorem (cred : Credentials) (baseUrl : String) (tx : Tx) :
    (garantiInitFormData cred baseUrl tx).secure3dhash =
      strUpper (sha1HexS
        (tx.id ++ cred.terminalId ++ "" ++ formatAmountCents tx.amount ++
          getCallbackUrl baseUrl tx.id ++ getCallbackUrl baseUrl tx.id ++ "sales" ++
          cred.secretKey ++
          strUpper (sha1HexS (cred.password ++ padStartZeros cred.terminalId 9)))) := rfl

/-- C5: the acquirer selector evaluates the company's active terminals
supporting the currency sorted by priority descending, applies the four rules
in order — (1) on-us bank-code match, (2) supported card family, (3) default
for the currency, (4) highest priority — returning the first match of the
lowest-numbered applicable rule; with no candidate it returns none; and in
scenario S4 terminal A (bankCode garanti, priority 0) beats terminal B
(bankCode isbank, priority 10) by rule 1. -/
theorem c5_theorem (posList : List PosT) (companyId currency : String)
    (binInfo : Option BinInfo) :
    List.Sorted prioGe (fetchActivePos posList companyId (strLower currency)) ∧
    (∀ p : PosT, p ∈ fetchActivePos posList companyId (strLower currency) ↔
      p ∈ posList ∧ p.company = companyId ∧ p.status = true ∧
        strLower currency ∈ p.currencies) ∧
    (∀ (allPos : List PosT) (cur : String) (bi : Option BinInfo) (p : PosT),
      cardBankCodeOf bi ≠ "" →
      allPos.find? (fun q => q.bankCode == cardBankCodeOf bi) = some p →
      findSuitablePosOn allPos cur bi = some p) ∧
    (∀ (allPos : List PosT) (cur : String) (bi : Option BinInfo) (p : PosT),
      (if cardBankCodeOf bi ≠ "" then
          allPos.find? (fun q => q.bankCode == cardBankCodeOf bi)
        else none) = none →
      cardFamilyOf bi ≠ "" →
      allPos.find? (fun q => q.supportedCardFamilies.any
        (fun f => strLower f == cardFamilyOf bi)) = some p →
      findSuitablePosOn allPos cur bi = some p) ∧
    (∀ (allPos : List PosT) (cur : String) (bi : Option BinInfo) (p : PosT),
      (if cardBankCodeOf bi ≠ "" then
          allPos.find? (fun q => q.bankCode == cardBankCodeOf bi)
        else none) = none →
      (if cardFamilyOf bi ≠ "" then
          allPos.find? (fun q => q.supportedCardFamilies.any
            (fun f => strLower f == cardFamilyOf bi))
        else none) = none →
      allPos.find? (fun q => q.defaultForCurrencies.contains cur) = some p →
      findSuitablePosOn allPos cur bi = some p) ∧
    (∀ (allPos : List PosT) (cur : String) (bi : Option BinInfo),
      (if cardBankCodeOf bi ≠ "" then
          allPos.find? (fun q => q.bankCode == cardBankCodeOf bi)
        else none) = none →
      (if cardFamilyOf bi ≠ "" then
          allPos.find? (fun q => q.supportedCardFamilies.any
            (fun f => strLower f == cardFamilyOf bi))
        else none) = none →
      allPos.find? (fun q => q.defaultForCurrencies.contains cur) = none →
      findSuitablePosOn allPos cur bi = allPos.head?) ∧
    (fetchActivePos posList companyId (strLower currency) = [] →
      findSuitablePos posList companyId currency binInfo = none) ∧
    findSuitablePos [s4posA, s4posB] "C1" "try" (some s4bin) = some s4posA := by
  refine ⟨?_, ?_, ?_, ?_, ?_, ?_, ?_, ?_⟩
  · exact List.sorted_insertionSort prioGe _
  · intro p
    simp [fetchActivePos, List.mem_filter, (List.perm_insertionSort prioGe _).mem_iff,
      and_assoc]
  · intro allPos cur bi p hbc hfind
    have hne : allPos.isEmpty = false := by
      cases allPos with
      | nil => simp at hfind
      | cons a l => rfl
    simp [findSuitablePosOn, hne, hbc, hfind]
  · intro allPos cur bi p h1 hcf hfind
    have hne : allPos.isEmpty = false := by
      cases allPos with
      | nil => simp at hfind
      | cons a l => rfl
    simp [findSuitablePosOn, hne, h1, hcf, hfind]
  · intro allPos cur bi p h1 h2 hfind
    have hne : allPos.isEmpty = false := by
      cases allPos with
      | nil => simp at hfind
      | cons a l => rfl
    simp at hfind
    simp [findSuitablePosOn, hne, h1, h2, hfind]
  · intro allPos cur bi h1 h2 h3
    cases allPos with
    | nil => rfl
    | cons a l =>
      simp only [List.contains, List.elem_eq_mem] at h3
      simp [findSuitablePosOn, h1, h2, h3]
  · intro hempty
    unfold findSuitablePos
    rw [hempty]
    rfl
  · decide

/-- C5 witness: rule 1 of the theorem applied to the S4 fetched list — the
on-us terminal A is selected over the higher-priority terminal B. -/
theorem c5_witness :
    findSuitablePosOn [s4posB, s4posA] "try" (some s4bin) = some s4posA :=
  (c5_theorem [] "C1" "try" none).2.2.1 [s4posB, s4posA] "try" (some s4bin) s4posA
    (by decide) (by decide)

theorem jsSub_0_16_of_ge (l : List Char) (h : 16 ≤ l.length) :
    jsSubstringL l 0 16 = l.take 16 := by
  simp only [jsSubstringL]
  have ha : (max 0 (min (0 : Int) l.length)).toNat = 0 := by omega
  have hb : (max 0 (min (16 : Int) l.length)).toNat = 16 := by omega
  rw [ha, hb, if_pos (by omega)]
  simp

theorem jsSub_0_16_of_lt (l : List Char) (h : l.length < 16) :
    jsSubstringL l 0 16 = l := by
  simp only [jsSubstringL]
  have ha : (max 0 (min (0 : Int) l.length)).toNat = 0 := by omega
  have hb : (max 0 (min (16 : Int) l.length)).toNat = l.length := by omega
  rw [ha, hb, if_pos (by omega)]
  simp

theorem jsSub_16_len (l : List Char) : jsSubstringL l 16 l.length = l.drop 16 := by
  simp only [jsSubstringL]
  by_cases h : 16 ≤ l.length
  · have ha : (max 0 (min (16 : Int) l.length)).toNat = 16 := by omega
    have hb : (max 0 (min (l.length : Int) l.length)).toNat = l.length := by omega
    rw [ha, hb, if_pos (by omega)]
    exact List.take_of_length_le (by simp)
  · have ha : (max 0 (min (16 : Int) l.length)).toNat = l.length := by omega
    have hb : (max 0 (min (l.length : Int) l.length)).toNat = l.length := by omega
    rw [ha, hb, if_pos (by omega)]
    rw [List.drop_eq_nil_of_le (by omega)]
    simp [List.drop_eq_nil_of_le, Nat.le_of_lt (by omega : l.length < 16)]

theorem jsSub_16_m8_big (l : List Char) (h : 24 ≤ l.length) :
    jsSubstringL l 16 ((l.length : Int) - 8) = (l.drop 16).take (l.length - 24) := by
  simp only [jsSubstringL]
  have ha : (max 0 (min (16 : Int) l.length)).toNat = 16 := by omega
  have hb : (max 0 (min ((l.length : Int) - 8) l.length)).toNat = l.length - 8 := by omega
  rw [ha, hb, if_pos (by omega)]
  congr 1 <;> omega

theorem jsSub_16_m8_small (l : List Char) (h1 : 16 ≤ l.length) (h2 : l.length < 24) :
    jsSubstringL l 16 ((l.length : Int) - 8) = (l.drop (l.length - 8)).take (24 - l.length) := by
  simp only [jsSubstringL]
  have ha : (max 0 (min (16 : Int) l.length)).toNat = 16 := by omega
  have hb : (max 0 (min ((l.length : Int) - 8) l.length)).toNat = l.length - 8 := by omega
  rw [ha, hb, if_neg (by omega)]
  congr 1 <;> omega

theorem jsSub_16_m16_big (l : List Char) (h : 32 ≤ l.length) :
    jsSubstringL l 16 ((l.length : Int) - 16) = (l.drop 16).take (l.length - 32) := by
  simp only [jsSubstringL]
  have ha : (max 0 (min (16 : Int) l.length)).toNat = 16 := by omega
  have hb : (max 0 (min ((l.length : Int) - 16) l.length)).toNat = l.length - 16 := by omega
  rw [ha, hb, if_pos (by omega)]
  congr 1 <;> omega

theorem jsSub_16_m16_small (l : List Char) (h1 : 16 ≤ l.length) (h2 : l.length < 32) :
    jsSubstringL l 16 ((l.length : Int) - 16)
      = (l.drop (l.length - 16)).take (32 - l.length) := by
  simp only [jsSubstringL]
  have ha : (max 0 (min (16 : Int) l.length)).toNat = 16 := by omega
  have hb : (max 0 (min ((l.length : Int) - 16) l.length)).toNat = l.length - 16 := by omega
  rw [ha, hb, if_neg (by omega)]
  congr 1 <;> omega

theorem hexPairs_len_all : ∀ (l : List Char), l.all isHexDigit = true →
    (hexPairsToBytes l).length = l.length / 2
  | [] => by intro _; rfl
  | [a] => by intro _; simp [hexPairsToBytes]
  | a :: b :: rest => by
    intro h
    simp only [List.all_cons, Bool.and_eq_true] at h
    obtain ⟨ha, hb, hrest⟩ := h
    have hva : (hexVal a).isSome = true := by simpa [isHexDigit] using ha
    have hvb : (hexVal b).isSome = true := by simpa [isHexDigit] using hb
    obtain ⟨x, hx⟩ := Option.isSome_iff_exists.mp hva
    obtain ⟨y, hy⟩ := Option.isSome_iff_exists.mp hvb
    have ih := hexPairs_len_all rest hrest
    simp only [hexPairsToBytes, hx, hy, List.length_cons, ih]
    omega

theorem all_take {p : Char → Bool} (l : List Char) (n : Nat) (h : l.all p = true) :
    (l.take n).all p = true := by
  rw [List.all_eq_true] at h ⊢
  exact fun x hx => h x (List.mem_of_mem_take hx)

theorem all_drop {p : Char → Bool} (l : List Char) (n : Nat) (h : l.all p = true) :
    (l.drop n).all p = true := by
  rw [List.all_eq_true] at h ⊢
  exact fun x hx => h x (List.mem_of_mem_drop hx)

theorem utf8Char_ascii (c : Char) (h : c.toNat < 128) : (utf8Char c).length = 1 := by
  simp [utf8Char, h]

theorem utf8EncodeL_ascii : ∀ (l : List Char), l.all (fun c => c.toNat < 128) = true →
    (utf8EncodeL l).length = l.length
  | [] => by intro _; rfl
  | c :: rest => by
    intro h
    simp only [List.all_cons, Bool.and_eq_true, decide_eq_true_eq] at h
    have ih : (rest.flatMap utf8Char).length = rest.length :=
      utf8EncodeL_ascii rest h.2
    simp only [utf8EncodeL, List.flatMap_cons, List.length_append, List.length_cons]
    rw [utf8Char_ascii c h.1]
    omega

theorem splitOnChar_len_le (c : Char) : ∀ (l : List Char),
    (splitOnChar c l).length ≤ l.length + 1
  | [] => by simp [splitOnChar]
  | x :: xs => by
    have ih := splitOnChar_len_le c xs
    simp only [splitOnChar]
    split
    · simp only [List.length_cons]
      omega
    · cases hr : splitOnChar c xs with
      | nil => simp
      | cons y ys =>
        rw [hr] at ih
        simp only [List.length_cons] at ih ⊢
        omega

theorem stripTrailingCtl_len (l : List Char) : (stripTrailingCtl l).length ≤ l.length := by
  unfold stripTrailingCtl
  calc (l.reverse.dropWhile (fun c => c.toNat ≤ 8)).reverse.length
      = (l.reverse.dropWhile (fun c => c.toNat ≤ 8)).length := by simp
    _ ≤ l.reverse.length := (List.dropWhile_sublist _).length_le
    _ = l.length := by simp

/-- With a plaintext no longer than the ciphertext, short data cannot yield
12 semicolon-separated fields: acceptance fails for data of at most 10 bytes. -/
theorem ykbAccept_short (tdes : TdesFun) (k i d : List Nat)
    (hShort : ∀ k' i' d', (tdes k' i' d').length ≤ d'.length)
    (hd : d.length ≤ 10) : ykbAccept tdes k i d = none := by
  unfold ykbAccept
  by_cases hc : (stripTrailingCtl (tdes k i d)).contains ';'
  · rw [if_neg (not_not_intro hc)]
    have h1 : (splitOnChar ';' (stripTrailingCtl (tdes k i d))).length
        ≤ (stripTrailingCtl (tdes k i d)).length + 1 := splitOnChar_len_le _ _
    have h2 : (stripTrailingCtl (tdes k i d)).length ≤ (tdes k i d).length :=
      stripTrailingCtl_len _
    have h3 := hShort k i d
    rw [if_pos (by omega)]
  · rw [if_pos hc]

theorem ykbKey_len (md5hex : Md5Fun) (storeKey : String)
    (hLen : 24 ≤ (md5hex storeKey).length)
    (hAscii : ((md5hex storeKey).data.map Char.toUpper).all (fun c => c.toNat < 128) = true) :
    (utf8EncodeL (ykbKeyChars md5hex storeKey)).length = 24 := by
  unfold ykbKeyChars
  rw [utf8EncodeL_ascii _ (all_take _ _ hAscii), List.length_take, List.length_map]
  have hsl : (md5hex storeKey).length = (md5hex storeKey).data.length := rfl
  omega

theorem ykbIv_len_ge (packet : List Char) (hHex : packet.all isHexDigit = true)
    (h : 16 ≤ packet.length) :
    (hexPairsToBytes (jsSubstringL packet 0 16)).length = 8 := by
  rw [jsSub_0_16_of_ge _ h, hexPairs_len_all _ (all_take _ _ hHex), List.length_take]
  omega

theorem ykbIv_len_lt (packet : List Char) (hHex : packet.all isHexDigit = true)
    (h : packet.length < 16) :
    (hexPairsToBytes (jsSubstringL packet 0 16)).length = packet.length / 2 := by
  rw [jsSub_0_16_of_lt _ h, hexPairs_len_all _ hHex]

theorem ykbTryDecrypt_eq_claim (tdes : TdesFun) (md5hex : Md5Fun) (packet : List Char)
    (storeKey : String) (m : YkbMode)
    (hHex : packet.all isHexDigit = true)
    (hLen : 24 ≤ (md5hex storeKey).length)
    (hAscii : ((md5hex storeKey).data.map Char.toUpper).all (fun c => c.toNat < 128) = true)
    (hShort : ∀ k i d, (tdes k i d).length ≤ d.length) :
    ykbTryDecrypt tdes md5hex packet storeKey m
      = claimVariant tdes md5hex packet storeKey m := by
  have hkey := ykbKey_len md5hex storeKey hLen hAscii
  by_cases hp : packet.length < 16
  · -- short packet: the IV cannot reach 8 bytes, both sides are none
    have hiv : (hexPairsToBytes (jsSubstringL packet 0 16)).length = packet.length / 2 :=
      ykbIv_len_lt packet hHex hp
    rw [claimVariant, if_pos hp]
    simp only [ykbTryDecrypt]
    by_cases hal : (hexPairsToBytes (ykbExtractData packet m)).length % 8 ≠ 0
    · rw [if_pos hal]
    · rw [if_neg hal, if_pos (Or.inr (by omega))]
  · push_neg at hp
    have hiv : (hexPairsToBytes (jsSubstringL packet 0 16)).length = 8 :=
      ykbIv_len_ge packet hHex hp
    have hivq : hexPairsToBytes (jsSubstringL packet 0 16)
        = hexPairsToBytes (packet.take 16) := by rw [jsSub_0_16_of_ge _ hp]
    have hiv2 : (hexPairsToBytes (packet.take 16)).length = 8 := by rw [← hivq]; exact hiv
    rw [claimVariant, if_neg (by omega)]
    cases m with
    | full =>
      have hx : ykbExtractData packet YkbMode.full = claimExtractData packet YkbMode.full := by
        simp only [ykbExtractData, claimExtractData]
        exact jsSub_16_len packet
      simp only [ykbTryDecrypt, hx, hivq]
      by_cases hal : (hexPairsToBytes (claimExtractData packet YkbMode.full)).length % 8 ≠ 0
      · rw [if_pos hal, if_pos hal]
      · rw [if_neg hal, if_neg hal, if_neg (by omega)]
    | minus8 =>
      by_cases h24 : 24 ≤ packet.length
      · have hx : ykbExtractData packet YkbMode.minus8
            = claimExtractData packet YkbMode.minus8 := by
          simp only [ykbExtractData, claimExtractData, dropLastN]
          rw [jsSub_16_m8_big _ h24]
          congr 1
          simp only [List.length_drop]
          omega
        simp only [ykbTryDecrypt, hx, hivq]
        by_cases hal :
            (hexPairsToBytes (claimExtractData packet YkbMode.minus8)).length % 8 ≠ 0
        · rw [if_pos hal, if_pos hal]
        · rw [if_neg hal, if_neg hal, if_neg (by omega)]
      · -- 16 ≤ length < 24: both variants reject (slice at most 4 bytes)
        push_neg at h24
        have hcode : (hexPairsToBytes (ykbExtractData packet YkbMode.minus8)).length ≤ 10 := by
          simp only [ykbExtractData]
          rw [jsSub_16_m8_small _ hp h24,
            hexPairs_len_all _ (all_take _ _ (all_drop _ _ hHex)), List.length_take,
            List.length_drop]
          omega
        have hclaim : (hexPairsToBytes (claimExtractData packet YkbMode.minus8)).length ≤ 10 := by
          simp only [claimExtractData, dropLastN]
          rw [hexPairs_len_all _ (all_take _ _ (all_drop _ _ hHex)), List.length_take,
            List.length_drop]
          omega
        simp only [ykbTryDecrypt, hivq]
        have hrhs : (if (hexPairsToBytes (claimExtractData packet YkbMode.minus8)).length % 8 ≠ 0
            then none
            else ykbAccept tdes (utf8EncodeL (ykbKeyChars md5hex storeKey))
              (hexPairsToBytes (packet.take 16))
              (hexPairsToBytes (claimExtractData packet YkbMode.minus8))) = none := by
          by_cases hal2 :
              (hexPairsToBytes (claimExtractData packet YkbMode.minus8)).length % 8 ≠ 0
          · rw [if_pos hal2]
          · rw [if_neg hal2]
            exact ykbAccept_short tdes _ _ _ hShort hclaim
        by_cases hal : (hexPairsToBytes (ykbExtractData packet YkbMode.minus8)).length % 8 ≠ 0
        · rw [if_pos hal]
          exact hrhs.symm
        · rw [if_neg hal, if_neg (by omega), ykbAccept_short tdes _ _ _ hShort hcode]
          exact hrhs.symm
    | minus16 =>
      by_cases h32 : 32 ≤ packet.length
      · have hx : ykbExtractData packet YkbMode.minus16
            = claimExtractData packet YkbMode.minus16 := by
          simp only [ykbExtractData, claimExtractData, dropLastN]
          rw [jsSub_16_m16_big _ h32]
          congr 1
          simp only [List.length_drop]
          omega
        simp only [ykbTryDecrypt, hx, hivq]
        by_cases hal :
            (hexPairsToBytes (claimExtractData packet YkbMode.minus16)).length % 8 ≠ 0
        · rw [if_pos hal, if_pos hal]
        · rw [if_neg hal, if_neg hal, if_neg (by omega)]
      · push_neg at h32
        have hcode : (hexPairsToBytes (ykbExtractData packet YkbMode.minus16)).length ≤ 10 := by
          simp only [ykbExtractData]
          rw [jsSub_16_m16_small _ hp h32,
            hexPairs_len_all _ (all_take _ _ (all_drop _ _ hHex)), List.length_take,
            List.length_drop]
          omega
        have hclaim : (hexPairsToBytes (claimExtractData packet YkbMode.minus16)).length ≤ 10 := by
          simp only [claimExtractData, dropLastN]
          rw [hexPairs_len_all _ (all_take _ _ (all_drop _ _ hHex)), List.length_take,
            List.length_drop]
          omega
        simp only [ykbTryDecrypt, hivq]
        have hrhs : (if (hexPairsToBytes (claimExtractData packet YkbMode.minus16)).length % 8 ≠ 0
            then none
            else ykbAccept tdes (utf8EncodeL (ykbKeyChars md5hex storeKey))
              (hexPairsToBytes (packet.take 16))
              (hexPairsToBytes (claimExtractData packet YkbMode.minus16))) = none := by
          by_cases hal2 :
              (hexPairsToBytes (claimExtractData packet YkbMode.minus16)).length % 8 ≠ 0
          · rw [if_pos hal2]
          · rw [if_neg hal2]
            exact ykbAccept_short tdes _ _ _ hShort hclaim
        by_cases hal : (hexPairsToBytes (ykbExtractData packet YkbMode.minus16)).length % 8 ≠ 0
        · rw [if_pos hal]
          exact hrhs.symm
        · rw [if_neg hal, if_neg (by omega), ykbAccept_short tdes _ _ _ hShort hcode]
          exact hrhs.symm

/-- C6: YKB `MerchantPacket` decryption derives the 3DES key as the first 24
characters of `upper(md5_hex(storeKey))` in UTF-8 (the key the model is built
from), takes the IV from the first 16 hex characters, tries the three
data-extraction variants — full remainder, remainder minus the last 8 hex
characters, remainder minus the last 16 — in that order, accepting the first
block-aligned variant whose plaintext contains a semicolon and at least 12
fields; a packet shorter than the IV yields no result; and whenever no variant
succeeds the callback marks the transaction failed with `DECRYPT_ERROR`.
Quantified over the external Triple-DES primitive (`hShort` states that a
plaintext is never longer than its ciphertext, true of CBC decryption) and the
external MD5 (whose hex digest has 32 ASCII characters). -/
theorem c6_theorem (tdes : TdesFun) (md5hex : Md5Fun) (packet : List Char) (storeKey : String)
    (hHex : packet.all isHexDigit = true)
    (hLen : 24 ≤ (md5hex storeKey).length)
    (hAscii : ((md5hex storeKey).data.map Char.toUpper).all (fun c => c.toNat < 128) = true)
    (hShort : ∀ k i d, (tdes k i d).length ≤ d.length) :
    decryptMerchantPacket tdes md5hex packet storeKey
      = (match claimVariant tdes md5hex packet storeKey .full with
         | some r => some r
         | none =>
           match claimVariant tdes md5hex packet storeKey .minus8 with
           | some r => some r
           | none => claimVariant tdes md5hex packet storeKey .minus16) ∧
    (packet.length < 16 → decryptMerchantPacket tdes md5hex packet storeKey = none) ∧
    (∀ (resp : HttpResult YkbXmlResp) (cred : Credentials) (tx : Tx) (post : YkbPost),
      post.merchantPacket.data = packet → post.merchantPacket ≠ "" →
      cred.secretKey = storeKey → storeKey ≠ "" →
      decryptMerchantPacket tdes md5hex packet storeKey = none →
      (ykbProcessCallback tdes md5hex resp cred tx post).tx.status = "failed" ∧
      (ykbProcessCallback tdes md5hex resp cred tx post).tx.result
        = some { success := false, code := some "DECRYPT_ERROR",
                 message := some "3D dogrulama sifresi cozulemedi" }) := by
  have heq : decryptMerchantPacket tdes md5hex packet storeKey
      = (match claimVariant tdes md5hex packet storeKey .full with
         | some r => some r
         | none =>
           match claimVariant tdes md5hex packet storeKey .minus8 with
           | some r => some r
           | none => claimVariant tdes md5hex packet storeKey .minus16) := by
    unfold decryptMerchantPacket
    rw [ykbTryDecrypt_eq_claim tdes md5hex packet storeKey .full hHex hLen hAscii hShort,
      ykbTryDecrypt_eq_claim tdes md5hex packet storeKey .minus8 hHex hLen hAscii hShort,
      ykbTryDecrypt_eq_claim tdes md5hex packet storeKey .minus16 hHex hLen hAscii hShort]
  refine ⟨heq, ?_, ?_⟩
  · intro hp
    rw [heq]
    simp [claimVariant, if_pos hp]
  · intro resp cred tx post hmp hne hsk hz hnone
    subst hmp
    subst hsk
    have hne2 : ¬ (post.merchantPacket = "") := hne
    have hz2 : ¬ (cred.secretKey = "") := hz
    simp only [ykbProcessCallback, if_neg hne2, if_neg hz2, hnone]
    exact ⟨trivial, trivial⟩

/-- C6 witness: the theorem's short-packet conclusion at a concrete 2-hex-char
packet and concrete stand-ins for the crypto primitives. -/
theorem c6_witness :
    decryptMerchantPacket c6TdesStub c6Md5Stub ("00".data) "12345678" = none :=
  (c6_theorem c6TdesStub c6Md5Stub ("00".data) "12345678" (by decide) (by decide) (by decide)
    (fun k i d => by simp [c6TdesStub])).2.1 (by decide)

end OrsPay
